import Mathlib

/-!
Verification of the task-tracking service (domain entity, factory,
in-memory repository, application service, HTTP list endpoint).

The embedding mirrors the Python source:
- `TaskStatus`, `Task`, `TaskFactory` come from app/domain/task.py;
- `MemoryTaskRepository.*` come from
  app/adapters/persistence/memory_task_repository.py, with the Python
  dict modelled as an insertion-ordered association list with unique
  keys (store replaces in place, delete removes the key);
- `TaskService.*` come from app/application/services/task_service.py;
- `get_tasks` comes from the GET /tasks handler in
  app/adapters/http/fastapi_app.py.

Python exceptions are modelled with `Except String`; `uuid.uuid4()` is
modelled by an explicit `freshId` argument; Python `str.strip` and
`str.lower` are modelled directly on the character list (`pyStrip`,
`pyLower`) so that every definition evaluates by kernel reduction.
-/

set_option autoImplicit false

namespace TaskApp

/-- ASCII lowercasing of one character, as Python `str.lower` acts on the
ASCII range (the only range this codebase uses). -/
def pyLowerChar (c : Char) : Char :=
  if c.toNat ≥ 65 ∧ c.toNat ≤ 90 then Char.ofNat (c.toNat + 32) else c

/-- Python `str.lower`. -/
def pyLower (s : String) : String :=
  ⟨s.data.map pyLowerChar⟩

/-- Python `str.strip` with no argument: removes leading and trailing
whitespace. -/
def pyStrip (s : String) : String :=
  ⟨((s.data.dropWhile Char.isWhitespace).reverse.dropWhile
      Char.isWhitespace).reverse⟩

/-- Valid task statuses (enum TaskStatus in app/domain/task.py). -/
inductive TaskStatus where
  | pending
  | done
deriving DecidableEq, Repr

/-- The `.value` attribute of the Python enum member. -/
def TaskStatus.value : TaskStatus → String
  | .pending => "pending"
  | .done => "done"

/-- `TaskStatus(s)`: the enum lookup by value, raising ValueError on a miss. -/
def TaskStatus.ofValue (s : String) : Except String TaskStatus :=
  if s = "pending" then .ok .pending
  else if s = "done" then .ok .done
  else .error ("ValueError: " ++ s ++ " is not a valid TaskStatus")

/-- Task entity (dataclass Task in app/domain/task.py). -/
structure Task where
  id : String
  title : String
  status : TaskStatus
deriving DecidableEq, Repr

/-- The validating constructor: `Task(...)` runs `__post_init__`, which raises
ValueError when the title is empty or all-whitespace. The Python
`isinstance(self.status, TaskStatus)` check is captured by the Lean type of
the `status` field. -/
def Task.mk? (id title : String) (status : TaskStatus) : Except String Task :=
  if title = "" ∨ pyStrip title = "" then .error "Task title cannot be empty"
  else .ok ⟨id, title, status⟩

/-- `Task.to_dict`: the JSON shape `{id, title, status}` with the status
emitted as its string value. -/
structure TaskDict where
  id : String
  title : String
  status : String
deriving DecidableEq, Repr

def Task.to_dict (t : Task) : TaskDict :=
  ⟨t.id, t.title, t.status.value⟩

/-- `Task.mark_as_done`: builds a new Task (running validation again) with
the same id and title and status DONE. -/
def Task.mark_as_done (t : Task) : Except String Task :=
  Task.mk? t.id t.title .done

/-- `Task.update_title`: builds a new Task (running validation again) with
the same id and status and the new title. -/
def Task.update_title (t : Task) (new_title : String) : Except String Task :=
  Task.mk? t.id new_title t.status

/-- `TaskFactory.create(title, status, task_id=None)`: parses the lowered
status string, picks the given id or a fresh uuid (modelled by `freshId`),
then constructs the Task with the trimmed title. -/
def TaskFactory.create (freshId : String) (title status : String)
    (task_id : Option String) : Except String Task :=
  match TaskStatus.ofValue (pyLower status) with
  | .error _ =>
      .error ("Invalid status " ++ status ++ ". Must be pending or done")
  | .ok st =>
      Task.mk? (task_id.getD freshId) (pyStrip title) st

/-- The in-memory store: a Python dict keyed by task id, modelled as an
insertion-ordered association list with unique keys. -/
abbrev Repo := List (String × Task)

/-- Dict lookup `self._tasks.get(task_id)`. -/
def Repo.get? (r : Repo) (k : String) : Option Task :=
  match r with
  | [] => none
  | (k0, t0) :: rest => if k0 = k then some t0 else Repo.get? rest k

/-- Dict assignment `self._tasks[task.id] = task`: replaces the entry in
place when the key exists, appends otherwise (Python dicts preserve the
original insertion position on overwrite). -/
def Repo.store (r : Repo) (k : String) (t : Task) : Repo :=
  match r with
  | [] => [(k, t)]
  | (k0, t0) :: rest =>
      if k0 = k then (k, t) :: rest else (k0, t0) :: Repo.store rest k t

/-- Dict deletion `del self._tasks[task_id]`: removes the entry with the key. -/
def Repo.erase (r : Repo) (k : String) : Repo :=
  r.filter (fun p => decide (p.1 ≠ k))

/-- `MemoryTaskRepository.save`: unconditional insert-or-overwrite, returns
the task. -/
def MemoryTaskRepository.save (r : Repo) (t : Task) : Repo × Task :=
  (r.store t.id t, t)

/-- `MemoryTaskRepository.find_all`: `list(self._tasks.values())`. -/
def MemoryTaskRepository.find_all (r : Repo) : List Task :=
  r.map Prod.snd

/-- `MemoryTaskRepository.find_by_id`: exact-key lookup. -/
def MemoryTaskRepository.find_by_id (r : Repo) (task_id : String) : Option Task :=
  r.get? task_id

/-- `MemoryTaskRepository.update`: overwrites only when `task.id` is already
stored, returns None otherwise without side effect. -/
def MemoryTaskRepository.update (r : Repo) (t : Task) : Repo × Option Task :=
  match r.get? t.id with
  | none => (r, none)
  | some _ => (r.store t.id t, some t)

/-- `MemoryTaskRepository.delete`: removes the entry if present, reports
whether removal occurred. -/
def MemoryTaskRepository.delete (r : Repo) (task_id : String) : Repo × Bool :=
  match r.get? task_id with
  | none => (r, false)
  | some _ => (r.erase task_id, true)

/-- `TaskService.create_task`: factory-validates (fresh id), then saves.
A ValueError from the factory propagates before the save runs, so the
repository is returned unchanged in that case. -/
def TaskService.create_task (r : Repo) (freshId title status : String) :
    Except String Task × Repo :=
  match TaskFactory.create freshId title status none with
  | .error e => (.error e, r)
  | .ok task =>
      let (r2, saved) := MemoryTaskRepository.save r task
      (.ok saved, r2)

/-- `TaskService.get_all_tasks`: passthrough to `find_all`. -/
def TaskService.get_all_tasks (r : Repo) : List Task :=
  MemoryTaskRepository.find_all r

/-- `TaskService.get_task_by_id`: passthrough to `find_by_id`. -/
def TaskService.get_task_by_id (r : Repo) (task_id : String) : Option Task :=
  MemoryTaskRepository.find_by_id r task_id

/-- `TaskService.update_task`: loads the existing task (None when absent),
merges the optional fields with the current values, re-runs the factory
with the id pinned, then persists via repository update. A ValueError from
the factory propagates with the repository unchanged. -/
def TaskService.update_task (r : Repo) (task_id : String)
    (title status : Option String) : Except String (Option Task) × Repo :=
  match MemoryTaskRepository.find_by_id r task_id with
  | none => (.ok none, r)
  | some existing_task =>
      let new_title := title.getD existing_task.title
      let new_status := status.getD existing_task.status.value
      match TaskFactory.create "" new_title new_status (some task_id) with
      | .error e => (.error e, r)
      | .ok updated_task =>
          let (r2, res) := MemoryTaskRepository.update r updated_task
          (.ok res, r2)

/-- `TaskService.delete_task`: passthrough to repository delete. -/
def TaskService.delete_task (r : Repo) (task_id : String) : Repo × Bool :=
  MemoryTaskRepository.delete r task_id

/-- `TaskService.get_tasks_by_status`: linear scan keeping tasks whose
status value equals the lowered filter string. -/
def TaskService.get_tasks_by_status (r : Repo) (status : String) : List Task :=
  (MemoryTaskRepository.find_all r).filter
    (fun task => task.status.value == (pyLower status))

/-- Outcome of one HTTP request to the GET /tasks handler. -/
inductive HttpResult where
  | ok200 (body : List TaskDict)
  | error400 (detail : String)
  | error500 (detail : String)
deriving DecidableEq, Repr

/-- The detail of the unhandled AttributeError escaping the handler. -/
def attributeErrorDetail : String :=
  "AttributeError: str object has no attribute HTTP_400_BAD_REQUEST"

/-- The GET /tasks handler in app/adapters/http/fastapi_app.py. The query
parameter `status` shadows the imported fastapi `status` module inside the
function body, so on an invalid filter the expression
`status.HTTP_400_BAD_REQUEST` is an attribute access on a plain string and
raises AttributeError; the `except Exception` handler then evaluates
`status.HTTP_500_INTERNAL_SERVER_ERROR` on the same string and raises
AttributeError again, which escapes the handler and surfaces as a generic
500 response. A missing or empty (falsy) filter lists all tasks; a valid
filter lists the filtered tasks. -/
def get_tasks (r : Repo) (status : Option String) : HttpResult :=
  match status with
  | none => .ok200 ((TaskService.get_all_tasks r).map Task.to_dict)
  | some s =>
      if s = "" then .ok200 ((TaskService.get_all_tasks r).map Task.to_dict)
      else if (pyLower s) = "pending" ∨ (pyLower s) = "done" then
        .ok200 ((TaskService.get_tasks_by_status r s).map Task.to_dict)
      else
        .error500 attributeErrorDetail

/-! ## Supporting lemmas -/

/-- A well-formed stored task: its title is trimmed and non-empty, as every
title written through the factory or the HTTP DTO validators is. -/
def TaskStored (t : Task) : Prop :=
  pyStrip t.title = t.title ∧ t.title ≠ ""

/-- A valid task in the sense of the entity invariant: the title is neither
empty nor all-whitespace. -/
def TaskValid (t : Task) : Prop :=
  t.title ≠ "" ∧ pyStrip t.title ≠ ""

/-- Whether an Except value is an error. -/
def isError {α : Type} : Except String α → Bool
  | .error _ => true
  | .ok _ => false

/-- The enum member whose (lowercase) value is the given string, defaulting
to pending; used only to state which member a successful parse returns. -/
def statusOfLower (s : String) : TaskStatus :=
  if s = "done" then .done else .pending

theorem value_pyLower (st : TaskStatus) : pyLower st.value = st.value := by
  cases st <;> rfl

theorem ofValue_value (st : TaskStatus) : TaskStatus.ofValue st.value = .ok st := by
  cases st <;> rfl

theorem mem_dropWhile_of_not {p : Char → Bool} {c : Char} :
    ∀ {l : List Char}, c ∈ l → p c = false → c ∈ l.dropWhile p := by
  intro l hmem hpc
  induction l with
  | nil => cases hmem
  | cons a l ih =>
      rw [List.dropWhile_cons]
      rcases List.mem_cons.mp hmem with h | h
      · subst h; simp [hpc]
      · by_cases hpa : p a
        · simp [hpa]; exact ih h
        · simp [hpa]; exact Or.inr h

theorem stripList_ne_nil_of_mem {l : List Char} {c : Char}
    (hmem : c ∈ l) (hc : Char.isWhitespace c = false) :
    ((l.dropWhile Char.isWhitespace).reverse.dropWhile
        Char.isWhitespace).reverse ≠ [] := by
  have h1 : c ∈ l.dropWhile Char.isWhitespace := mem_dropWhile_of_not hmem hc
  have h2 : c ∈ (l.dropWhile Char.isWhitespace).reverse := List.mem_reverse.mpr h1
  have h3 : c ∈ (l.dropWhile Char.isWhitespace).reverse.dropWhile Char.isWhitespace :=
    mem_dropWhile_of_not h2 hc
  have h4 : c ∈ ((l.dropWhile Char.isWhitespace).reverse.dropWhile
      Char.isWhitespace).reverse := List.mem_reverse.mpr h3
  exact List.ne_nil_of_mem h4

theorem dropWhile_head_false {p : Char → Bool} :
    ∀ {l : List Char} {c : Char} {cs : List Char},
      l.dropWhile p = c :: cs → p c = false := by
  intro l
  induction l with
  | nil => intro c cs h; cases h
  | cons a l ih =>
      intro c cs h
      rw [List.dropWhile_cons] at h
      by_cases hpa : p a
      · simp [hpa] at h; exact ih h
      · simp [hpa] at h
        rw [← h.1]
        exact Bool.of_not_eq_true hpa

/-- The characters of a string, written so that `pyStrip` can be unfolded
through it. -/
theorem pyStrip_data (s : String) :
    (pyStrip s).data =
      ((s.data.dropWhile Char.isWhitespace).reverse.dropWhile
          Char.isWhitespace).reverse := rfl

theorem string_eq_empty_iff_data (s : String) : s = "" ↔ s.data = [] :=
  ⟨fun h => by rw [h], fun h => String.ext (by rw [h])⟩

/-- Stripping an already-stripped non-empty string changes nothing that the
emptiness test can see: the second strip is still non-empty. -/
theorem pyStrip_pyStrip_ne_empty {s : String} (h : pyStrip s ≠ "") :
    pyStrip (pyStrip s) ≠ "" := by
  have hdata : (pyStrip s).data ≠ [] :=
    fun hd => h ((string_eq_empty_iff_data _).mpr hd)
  intro hcon
  have hcond : (pyStrip (pyStrip s)).data = [] :=
    (string_eq_empty_iff_data _).mp hcon
  rw [pyStrip_data, pyStrip_data] at hcond
  rw [pyStrip_data] at hdata
  rcases hd : ((s.data.dropWhile Char.isWhitespace).reverse.dropWhile
      Char.isWhitespace) with _ | ⟨c, cs⟩
  · rw [hd] at hdata; simp at hdata
  · have hc : Char.isWhitespace c = false := dropWhile_head_false hd
    have hmem : c ∈ ((s.data.dropWhile Char.isWhitespace).reverse.dropWhile
        Char.isWhitespace).reverse := by
      rw [hd]; simp
    exact stripList_ne_nil_of_mem hmem hc hcond

theorem ofValue_ok {s : String} {st : TaskStatus}
    (h : TaskStatus.ofValue s = .ok st) : s = st.value := by
  unfold TaskStatus.ofValue at h
  by_cases h1 : s = "pending"
  · simp [h1] at h; rw [h1, ← h]; rfl
  · by_cases h2 : s = "done"
    · simp [h1, h2] at h; rw [h2, ← h]; rfl
    · simp [h1, h2] at h

theorem get?_store (r : Repo) (k : String) (t : Task) :
    Repo.get? (Repo.store r k t) k = some t := by
  induction r with
  | nil => simp [Repo.store, Repo.get?]
  | cons p rest ih =>
      rcases p with ⟨k0, t0⟩
      by_cases hk : k0 = k
      · simp [Repo.store, Repo.get?, hk]
      · simp [Repo.store, Repo.get?, hk, ih]

theorem get?_erase (r : Repo) (k : String) :
    Repo.get? (Repo.erase r k) k = none := by
  induction r with
  | nil => rfl
  | cons p rest ih =>
      rcases p with ⟨k0, t0⟩
      by_cases hk : k0 = k
      · simpa [Repo.erase, List.filter_cons, hk] using ih
      · simpa [Repo.erase, List.filter_cons, hk, Repo.get?] using ih

/-- Sample data used by the witnesses. -/
def sampleTask : Task := ⟨"1", "Buy milk", .pending⟩

def sampleRepo : Repo := [("1", sampleTask)]

theorem ofValue_pyLower_ok {s : String}
    (hs : pyLower s = "pending" ∨ pyLower s = "done") :
    TaskStatus.ofValue (pyLower s) = .ok (statusOfLower (pyLower s)) := by
  rcases hs with h | h <;> rw [h] <;> rfl

theorem statusOfLower_value {s : String}
    (hs : s = "pending" ∨ s = "done") : (statusOfLower s).value = s := by
  rcases hs with h | h <;> rw [h] <;> rfl

theorem factory_create_ok {st : TaskStatus} (freshId title status : String)
    (task_id : Option String) (htitle : pyStrip title ≠ "")
    (hov : TaskStatus.ofValue (pyLower status) = .ok st) :
    TaskFactory.create freshId title status task_id =
      .ok ⟨task_id.getD freshId, pyStrip title, st⟩ := by
  unfold TaskFactory.create
  rw [hov]
  show Task.mk? (task_id.getD freshId) (pyStrip title) st = _
  unfold Task.mk?
  rw [if_neg (not_or.mpr ⟨htitle, pyStrip_pyStrip_ne_empty htitle⟩)]

theorem update_task_found_eq (r : Repo) (task_id : String)
    (title status : Option String) (t : Task)
    (hfind : MemoryTaskRepository.find_by_id r task_id = some t) :
    TaskService.update_task r task_id title status =
      match TaskFactory.create "" (title.getD t.title)
          (status.getD t.status.value) (some task_id) with
      | .error e => (.error e, r)
      | .ok u =>
          (.ok (MemoryTaskRepository.update r u).2,
           (MemoryTaskRepository.update r u).1) := by
  unfold TaskService.update_task
  rw [hfind]

theorem update_eq_store {r : Repo} {u t : Task}
    (h : Repo.get? r u.id = some t) :
    MemoryTaskRepository.update r u = (Repo.store r u.id u, some u) := by
  unfold MemoryTaskRepository.update
  rw [h]

theorem update_task_found_ok_eq (r : Repo) (task_id : String)
    (title status : Option String) (t u : Task)
    (hfind : MemoryTaskRepository.find_by_id r task_id = some t)
    (hfac : TaskFactory.create "" (title.getD t.title)
        (status.getD t.status.value) (some task_id) = .ok u) :
    TaskService.update_task r task_id title status =
      (.ok (MemoryTaskRepository.update r u).2,
       (MemoryTaskRepository.update r u).1) := by
  rw [update_task_found_eq r task_id title status t hfind, hfac]

/-! ## Claim theorems -/

/-- Claim C1 (code bug, failing half): because the query parameter `status`
shadows the fastapi `status` module, a GET /tasks request whose status
filter is non-empty and not pending/done (case-insensitively) makes the
handler raise an unhandled AttributeError, surfaced as a 500 server error —
not the 400 client error the spec states. The valid-filter half behaves as
specified: 200 with the filtered task list. -/
theorem get_tasks_invalid_filter_gives_500 :
    (∀ (r : Repo) (s : String), s ≠ "" → pyLower s ≠ "pending" →
        pyLower s ≠ "done" →
        get_tasks r (some s) = .error500 attributeErrorDetail) ∧
    (∀ (r : Repo) (s : String),
        (pyLower s = "pending" ∨ pyLower s = "done") →
        get_tasks r (some s) =
          .ok200 ((TaskService.get_tasks_by_status r s).map Task.to_dict)) := by
  constructor
  · intro r s hne hp hd
    simp [get_tasks, hne, hp, hd]
  · intro r s hv
    have hne : s ≠ "" := by
      rintro rfl
      rcases hv with h | h
      · exact absurd h (by decide)
      · exact absurd h (by decide)
    simp [get_tasks, hne, hv]

/-- Witness for C1: the invalid filter value xyz yields the 500 response on
a concrete repository, and the valid filter value PENDING yields 200 with
the filtered list. -/
theorem get_tasks_invalid_filter_gives_500_witness :
    get_tasks sampleRepo (some "xyz") = .error500 attributeErrorDetail ∧
    get_tasks sampleRepo (some "PENDING") =
      .ok200 [⟨"1", "Buy milk", "pending"⟩] :=
  ⟨get_tasks_invalid_filter_gives_500.1 sampleRepo "xyz" (by decide) (by decide)
      (by decide),
   get_tasks_invalid_filter_gives_500.2 sampleRepo "PENDING" (Or.inl (by decide))⟩

/-- Claim C5: saving a task and then looking its id up returns a task equal
in all fields to the one saved. -/
theorem save_find_by_id_roundtrip (r : Repo) (t : Task) :
    MemoryTaskRepository.find_by_id (MemoryTaskRepository.save r t).1 t.id =
      some t := by
  unfold MemoryTaskRepository.save MemoryTaskRepository.find_by_id
  exact get?_store r t.id t

/-- Claim C6: deleting an id that is not stored returns false and leaves the
repository unchanged, and a second consecutive delete of any id always
returns false. -/
theorem delete_absent_and_idempotent :
    (∀ (r : Repo) (task_id : String),
        MemoryTaskRepository.find_by_id r task_id = none →
        MemoryTaskRepository.delete r task_id = (r, false)) ∧
    (∀ (r : Repo) (task_id : String),
        (MemoryTaskRepository.delete
            (MemoryTaskRepository.delete r task_id).1 task_id).2 = false) := by
  constructor
  · intro r task_id h
    unfold MemoryTaskRepository.delete
    unfold MemoryTaskRepository.find_by_id at h
    rw [h]
  · intro r task_id
    unfold MemoryTaskRepository.delete
    rcases hd : Repo.get? r task_id with _ | t
    · simp [hd]
    · simp [hd, get?_erase]

/-- Witness for C6: deleting the absent id 2 from the sample repository
returns false and leaves it unchanged. -/
theorem delete_absent_and_idempotent_witness :
    MemoryTaskRepository.delete sampleRepo "2" = (sampleRepo, false) :=
  delete_absent_and_idempotent.1 sampleRepo "2" (by decide)

/-- Claim C7: the status filter returns exactly the stored tasks whose
status matches the given value case-insensitively, in the order find_all
yields them, and a task is in the result precisely when it is stored and
matches. -/
theorem get_tasks_by_status_exact (r : Repo) (s : String) :
    TaskService.get_tasks_by_status r s =
      (MemoryTaskRepository.find_all r).filter
        (fun t => pyLower t.status.value == pyLower s) ∧
    ∀ t : Task,
      t ∈ TaskService.get_tasks_by_status r s ↔
        t ∈ MemoryTaskRepository.find_all r ∧
          pyLower t.status.value = pyLower s := by
  have hcong : TaskService.get_tasks_by_status r s =
      (MemoryTaskRepository.find_all r).filter
        (fun t => pyLower t.status.value == pyLower s) := by
    unfold TaskService.get_tasks_by_status
    refine List.filter_congr ?_
    intro t _
    rw [value_pyLower]
  refine ⟨hcong, fun t => ?_⟩
  rw [hcong, List.mem_filter]
  simp

/-- Claim C9: filtering by a status value outside pending/done raises no
error and returns the empty list, since every stored status value is
pending or done. -/
theorem get_tasks_by_status_unknown_empty (r : Repo) (s : String)
    (hp : pyLower s ≠ "pending") (hd : pyLower s ≠ "done") :
    TaskService.get_tasks_by_status r s = [] := by
  unfold TaskService.get_tasks_by_status
  rw [List.filter_eq_nil_iff]
  intro t _
  cases hst : t.status <;> simp [TaskStatus.value, hst] <;>
    [exact fun h => hp h.symm; exact fun h => hd h.symm]

/-- Witness for C9: the filter value xyz returns the empty list on the
sample repository. -/
theorem get_tasks_by_status_unknown_empty_witness :
    TaskService.get_tasks_by_status sampleRepo "xyz" = [] :=
  get_tasks_by_status_unknown_empty sampleRepo "xyz" (by decide) (by decide)

/-- Claim C2: for a title with non-empty trim and a status that is
pending or done case-insensitively, the factory succeeds; the task's
title is the trimmed input, its status is the enum member whose value is
the lowercase canonical string, and its id is the given id when provided
(the freshly generated identifier, modelled by `freshId`, otherwise). -/
theorem factory_create_valid (freshId title status : String)
    (task_id : Option String) (htitle : pyStrip title ≠ "")
    (hstatus : pyLower status = "pending" ∨ pyLower status = "done") :
    TaskFactory.create freshId title status task_id =
      .ok ⟨task_id.getD freshId, pyStrip title,
           statusOfLower (pyLower status)⟩ ∧
    (statusOfLower (pyLower status)).value = pyLower status :=
  ⟨factory_create_ok freshId title status task_id htitle
      (ofValue_pyLower_ok hstatus),
   statusOfLower_value hstatus⟩

/-- Witness for C2: a padded title and an uppercase status produce the
trimmed, lowercased task; the supplied id is kept. -/
theorem factory_create_valid_witness :
    TaskFactory.create "u1" "  Buy milk " "PENDING" (some "z") =
      .ok ⟨"z", "Buy milk", .pending⟩ ∧
    TaskStatus.value .pending = "pending" :=
  factory_create_valid "u1" "  Buy milk " "PENDING" (some "z")
    (by decide) (Or.inl (by decide))

/-- Claim C3: a title with empty trim, or a status outside pending/done
case-insensitively, makes the factory fail with a validation error, and
the service create_task on such input fails and returns the repository
unchanged — no task is stored. -/
theorem create_task_invalid_stores_nothing (r : Repo)
    (freshId title status : String)
    (h : pyStrip title = "" ∨
         (pyLower status ≠ "pending" ∧ pyLower status ≠ "done")) :
    isError (TaskFactory.create freshId title status none) = true ∧
    isError (TaskService.create_task r freshId title status).1 = true ∧
    (TaskService.create_task r freshId title status).2 = r := by
  have hfac : isError (TaskFactory.create freshId title status none) = true := by
    rcases hov : TaskStatus.ofValue (pyLower status) with e | st
    · unfold TaskFactory.create
      rw [hov]
      rfl
    · rcases h with ht | ⟨hp, hd⟩
      · unfold TaskFactory.create
        rw [hov]
        show isError (Task.mk? (Option.getD none freshId) (pyStrip title) st) = true
        unfold Task.mk?
        rw [if_pos (Or.inl ht)]
        rfl
      · exfalso
        have hval := ofValue_ok hov
        cases st
        · exact hp hval
        · exact hd hval
  rcases hf : TaskFactory.create freshId title status none with e | t
  · have hsvc : TaskService.create_task r freshId title status = (.error e, r) := by
      unfold TaskService.create_task
      rw [hf]
    refine ⟨rfl, ?_, ?_⟩
    · rw [hsvc]
      rfl
    · rw [hsvc]
  · rw [hf] at hfac
    simp [isError] at hfac

/-- Witness for C3: an all-whitespace title is rejected and the sample
repository is returned unchanged. -/
theorem create_task_invalid_stores_nothing_witness :
    isError (TaskFactory.create "u1" "   " "pending" none) = true ∧
    isError (TaskService.create_task sampleRepo "u1" "   " "pending").1 = true ∧
    (TaskService.create_task sampleRepo "u1" "   " "pending").2 = sampleRepo :=
  create_task_invalid_stores_nothing sampleRepo "u1" "   " "pending"
    (Or.inl (by decide))

/-- Claim C4: on a stored id, a status-only update keeps the title and a
title-only update keeps the status, and the merged record is persisted at
that id; on an absent id, update_task returns none and the repository is
unchanged. The stored task is assumed well-formed (trimmed non-empty
title), which every factory-written record satisfies. -/
theorem update_task_merge_semantics :
    (∀ (r : Repo) (task_id s : String) (t : Task),
        MemoryTaskRepository.find_by_id r task_id = some t →
        TaskStored t →
        (pyLower s = "pending" ∨ pyLower s = "done") →
        TaskService.update_task r task_id none (some s) =
          (.ok (some ⟨task_id, t.title, statusOfLower (pyLower s)⟩),
           Repo.store r task_id
             ⟨task_id, t.title, statusOfLower (pyLower s)⟩)) ∧
    (∀ (r : Repo) (task_id newTitle : String) (t : Task),
        MemoryTaskRepository.find_by_id r task_id = some t →
        pyStrip newTitle ≠ "" →
        TaskService.update_task r task_id (some newTitle) none =
          (.ok (some ⟨task_id, pyStrip newTitle, t.status⟩),
           Repo.store r task_id ⟨task_id, pyStrip newTitle, t.status⟩)) ∧
    (∀ (r : Repo) (task_id : String) (title status : Option String),
        MemoryTaskRepository.find_by_id r task_id = none →
        TaskService.update_task r task_id title status = (.ok none, r)) := by
  refine ⟨?_, ?_, ?_⟩
  · intro r task_id s t hfind hstored hs
    have htitle : pyStrip t.title ≠ "" := by
      rw [hstored.1]
      exact hstored.2
    have hfac : TaskFactory.create "" ((none : Option String).getD t.title)
        ((some s).getD t.status.value) (some task_id) =
          .ok (⟨task_id, pyStrip t.title, statusOfLower (pyLower s)⟩ : Task) :=
      factory_create_ok "" t.title s (some task_id) htitle
        (ofValue_pyLower_ok hs)
    rw [update_task_found_ok_eq r task_id none (some s) t
      ⟨task_id, pyStrip t.title, statusOfLower (pyLower s)⟩ hfind hfac]
    have hupd : MemoryTaskRepository.update r
        (⟨task_id, pyStrip t.title, statusOfLower (pyLower s)⟩ : Task) =
          (Repo.store r task_id
             ⟨task_id, pyStrip t.title, statusOfLower (pyLower s)⟩,
           some ⟨task_id, pyStrip t.title, statusOfLower (pyLower s)⟩) :=
      update_eq_store hfind
    rw [hupd, hstored.1]
  · intro r task_id newTitle t hfind htitle
    have hov : TaskStatus.ofValue (pyLower t.status.value) = .ok t.status := by
      rw [value_pyLower]
      exact ofValue_value t.status
    have hfac : TaskFactory.create ""
        ((some newTitle).getD t.title)
        ((none : Option String).getD t.status.value) (some task_id) =
          .ok (⟨task_id, pyStrip newTitle, t.status⟩ : Task) :=
      factory_create_ok "" newTitle t.status.value (some task_id) htitle hov
    rw [update_task_found_ok_eq r task_id (some newTitle) none t
      ⟨task_id, pyStrip newTitle, t.status⟩ hfind hfac]
    have hupd : MemoryTaskRepository.update r
        (⟨task_id, pyStrip newTitle, t.status⟩ : Task) =
          (Repo.store r task_id ⟨task_id, pyStrip newTitle, t.status⟩,
           some ⟨task_id, pyStrip newTitle, t.status⟩) :=
      update_eq_store hfind
    rw [hupd]
  · intro r task_id title status hfind
    unfold TaskService.update_task
    rw [hfind]

/-- Witness for C4: on the sample repository, a status-only update keeps
the title Buy milk, a title-only update keeps the status pending, and
updating the absent id 2 returns none and changes nothing. -/
theorem update_task_merge_semantics_witness :
    TaskService.update_task sampleRepo "1" none (some "DONE") =
      (.ok (some ⟨"1", "Buy milk", .done⟩),
       [("1", ⟨"1", "Buy milk", .done⟩)]) ∧
    TaskService.update_task sampleRepo "1" (some " Read ") none =
      (.ok (some ⟨"1", "Read", .pending⟩),
       [("1", ⟨"1", "Read", .pending⟩)]) ∧
    TaskService.update_task sampleRepo "2" none none = (.ok none, sampleRepo) :=
  ⟨update_task_merge_semantics.1 sampleRepo "1" "DONE" sampleTask (by decide)
      ⟨by decide, by decide⟩ (Or.inr (by decide)),
   update_task_merge_semantics.2.1 sampleRepo "1" " Read " sampleTask
      (by decide) (by decide),
   update_task_merge_semantics.2.2 sampleRepo "2" none none (by decide)⟩

/-- Claim C8: a task accepted by the validating constructor has a title
that is neither empty nor all-whitespace and a status that is one of the
two defined values, and the change operations build a new task with the
same id (status set to done, or title replaced) instead of mutating the
original. -/
theorem task_invariant_and_immutable :
    (∀ (id title : String) (st : TaskStatus) (t : Task),
        Task.mk? id title st = .ok t →
        TaskValid t ∧ (t.status = .pending ∨ t.status = .done)) ∧
    (∀ t : Task, TaskValid t →
        Task.mark_as_done t = .ok ⟨t.id, t.title, .done⟩) ∧
    (∀ (t : Task) (new_title : String),
        new_title ≠ "" → pyStrip new_title ≠ "" →
        Task.update_title t new_title = .ok ⟨t.id, new_title, t.status⟩) := by
  refine ⟨?_, ?_, ?_⟩
  · intro id title st t h
    unfold Task.mk? at h
    by_cases hc : title = "" ∨ pyStrip title = ""
    · rw [if_pos hc] at h
      cases h
    · rw [if_neg hc] at h
      injection h with h
      subst h
      push_neg at hc
      refine ⟨⟨hc.1, hc.2⟩, ?_⟩
      cases st
      · exact Or.inl rfl
      · exact Or.inr rfl
  · intro t hv
    unfold Task.mark_as_done Task.mk?
    rw [if_neg (not_or.mpr ⟨hv.1, hv.2⟩)]
  · intro t new_title hne hstrip
    unfold Task.update_title Task.mk?
    rw [if_neg (not_or.mpr ⟨hne, hstrip⟩)]

/-- Witness for C8: the constructor accepts the sample task data, marking
it done keeps id 1 and title Buy milk, and retitling keeps id 1 and the
pending status. -/
theorem task_invariant_and_immutable_witness :
    TaskValid sampleTask ∧
    Task.mark_as_done sampleTask = .ok ⟨"1", "Buy milk", .done⟩ ∧
    Task.update_title sampleTask "Read" = .ok ⟨"1", "Read", .pending⟩ :=
  ⟨(task_invariant_and_immutable.1 "1" "Buy milk" .pending sampleTask rfl).1,
   task_invariant_and_immutable.2.1 sampleTask ⟨by decide, by decide⟩,
   task_invariant_and_immutable.2.2 sampleTask "Read" (by decide) (by decide)⟩

/-- Claim C10: on a stored id, update_task with the empty string as the
title argument (rather than the argument being absent) treats it as a
supplied value: the factory rejects it with the title validation error and
the repository is returned unchanged, instead of the previous title being
retained. -/
theorem update_task_empty_title_rejected (r : Repo) (task_id : String)
    (t : Task) (hfind : MemoryTaskRepository.find_by_id r task_id = some t) :
    TaskService.update_task r task_id (some "") none =
      (.error "Task title cannot be empty", r) := by
  rw [update_task_found_eq r task_id (some "") none t hfind]
  rcases t with ⟨tid, ttl, tst⟩
  cases tst <;> rfl

/-- Witness for C10: the empty-string title update on the stored id 1 of
the sample repository yields the validation error and leaves the
repository as it was. -/
theorem update_task_empty_title_rejected_witness :
    TaskService.update_task sampleRepo "1" (some "") none =
      (.error "Task title cannot be empty", sampleRepo) :=
  update_task_empty_title_rejected sampleRepo "1" sampleTask (by decide)

end TaskApp
